import Mathlib

/-!
# INKWELL authentication subsystem — shallow embedding

This file embeds the authentication & session-lifecycle subsystem of the
INKWELL repository in Lean 4 and proves/refutes the frozen claims about it.

Embedded sources:
* `src/backend/controllers/authController.js` — signup, verifyOtp, login,
  resetPassword (stateless-JWT controller variant);
* `src/backend/models/user.js` — the `User` schema, the `isLocked` virtual,
  the bcrypt pre-save hook and `incrementLoginAttempts`;
* the persisted-opaque-token controller variant (router sources in the
  repository) — its `refresh` and `logout` handlers, which maintain a
  per-user `refreshTokens` list.

Modelling conventions:
* Timestamps are `Nat` milliseconds; every handler takes the value of
  `Date.now()` for the request as an explicit `now` argument.
* `crypto.createHash('sha256')` and `bcrypt.hash` are modelled as
  collision-free tagged constructors (`Digest.sha256`, `PwHash.bcrypt`);
  `bcrypt.compare(p, h)` re-derives and compares, which is exact for the
  idealised collision-free hash.
* `crypto.randomBytes(40).toString('hex')` (opaque refresh tokens) is
  modelled as a fresh-nonce counter `nextTok` carried in the store.
* Randomly generated six-digit OTP codes are oracle inputs to the handlers.
* Mongoose documents live in a `DB` structure; `save` is modelled as
  id-keyed replacement; `hashOps` counts bcrypt hash invocations so that
  "before any hashing work" is observable.
-/

namespace Inkwell

/-- `crypto.createHash('sha256').update(s).digest('hex')`, modelled as a
collision-free tag. -/
inductive Digest
  | sha256 : String → Digest
deriving DecidableEq, Repr

/-- A stored bcrypt password hash (`bcrypt.hash(password, salt)` with 12
salt rounds, `user.js` pre-save hook), modelled as a collision-free tag. -/
inductive PwHash
  | bcrypt : String → PwHash
deriving DecidableEq, Repr

/-- `bcrypt.compare(enteredPassword, storedHash)`
(`UserSchema.methods.matchPassword`, `user.js:76-78`). -/
def matchPassword (entered : String) (stored : PwHash) : Bool :=
  stored == PwHash.bcrypt entered

/- ### Character classes of the JS regexes -/

/-- ASCII `[a-z]`. -/
def isLowerAscii (c : Char) : Bool := 'a' ≤ c && c ≤ 'z'

/-- ASCII `[A-Z]`. -/
def isUpperAscii (c : Char) : Bool := 'A' ≤ c && c ≤ 'Z'

/-- JS `\d`, i.e. `[0-9]`. -/
def isDigitAscii (c : Char) : Bool := '0' ≤ c && c ≤ '9'

/-- ASCII alphanumeric; JS `[\W_]` is exactly its complement
(`\W = [^A-Za-z0-9_]`, and the class re-adds `_`). -/
def isAsciiAlphanum (c : Char) : Bool :=
  isLowerAscii c || isUpperAscii c || isDigitAscii c

/-- JS line terminators, the characters the regex `.` does not match
(no `s` flag on the password regex). -/
def isLineTerminator (c : Char) : Bool :=
  c == '\n' || c == '\r' || c.toNat == 0x2028 || c.toNat == 0x2029

/-- `isStrongPassword` (`authController.js:13-16`):
`/^(?=.*[a-z])(?=.*[A-Z])(?=.*\d)(?=.*[\W_]).{8,}$/.test(pwd)`.

The pattern is anchored at both ends and the body `.{8,}$` must consume the
whole input, so a match exists iff the string has at least 8 characters,
none of them a line terminator (JS `.` excludes `\n`, `\r`, U+2028, U+2029
and `$` without the `m` flag only matches at the true end of input), and the
four lookaheads — which, on a terminator-free string, reduce to plain
existence — are satisfied. -/
def isStrongPassword (pwd : String) : Bool :=
  8 ≤ pwd.length
    && pwd.data.all (fun c => !isLineTerminator c)
    && pwd.data.any isLowerAscii
    && pwd.data.any isUpperAscii
    && pwd.data.any isDigitAscii
    && pwd.data.any (fun c => !isAsciiAlphanum c)

/-- The special-character set `[@$!%*?#&]` of `PASSWORD_REGEX`
(`user.js:6`). -/
def isSchemaSpecial (c : Char) : Bool :=
  c == '@' || c == '$' || c == '!' || c == '%' || c == '*' || c == '?'
    || c == '#' || c == '&'

/-- `PASSWORD_REGEX` (`user.js:6`):
`/^(?=.*[a-z])(?=.*[A-Z])(?=.*\d)(?=.*[@$!%*?#&])[A-Za-z\d@$!%*?#&]{8,}$/`.
The whole string must consist of allowed characters (which excludes line
terminators, so the lookaheads again reduce to existence). -/
def passwordRegexOk (pwd : String) : Bool :=
  8 ≤ pwd.length
    && pwd.data.all (fun c => isAsciiAlphanum c || isSchemaSpecial c)
    && pwd.data.any isLowerAscii
    && pwd.data.any isUpperAscii
    && pwd.data.any isDigitAscii
    && pwd.data.any isSchemaSpecial

/-- The whitespace characters of JS `\s` that can occur in our inputs. -/
def isSpaceChar (c : Char) : Bool :=
  c == ' ' || c == '\t' || c == '\n' || c == '\r' || c == '\x0b' || c == '\x0c'

/-- ASCII lowercasing of one character (`String.prototype.toLowerCase`,
restricted to the ASCII range our model needs). -/
def toLowerChar (c : Char) : Char :=
  if isUpperAscii c then Char.ofNat (c.toNat + 32) else c

/-- `String.prototype.trim`: strip leading and trailing whitespace. -/
def trimChars (l : List Char) : List Char :=
  ((l.dropWhile isSpaceChar).reverse.dropWhile isSpaceChar).reverse

/-- String-level trim. -/
def trimStr (s : String) : String :=
  String.mk (trimChars s.data)

/-- The domain part of `EMAIL_REGEX` needs `[^\s@]+\.[^\s@]+`: some `.`
that is neither the first nor the last character. -/
def hasInteriorDot (l : List Char) : Bool :=
  match l with
  | [] => false
  | _ :: t => t.dropLast.contains '.'

/-- `EMAIL_REGEX` (`user.js:7`): `/^[^\s@]+@[^\s@]+\.[^\s@]+$/`.
Matches iff the string splits at a unique `@` into two nonempty,
whitespace-free parts, the second containing an interior dot. -/
def emailOk (s : String) : Bool :=
  match s.data.splitOn '@' with
  | [loc, dom] =>
      !loc.isEmpty && !dom.isEmpty
        && loc.all (fun c => !isSpaceChar c)
        && dom.all (fun c => !isSpaceChar c)
        && hasInteriorDot dom
  | _ => false

/-- The schema setters `lowercase: true, trim: true` on `email`
(`user.js:16-23`), applied both when a document field is set and when a
query filter value is cast. -/
def normalizeEmail (e : String) : String :=
  String.mk ((trimChars e.data).map toLowerChar)

/- ### The `User` document (`user.js:9-55`) -/

/-- One document of the `User` collection. `refreshTokens` is the
per-user list of persisted opaque refresh tokens maintained by the
persisted-token controller variant; opaque tokens are modelled as `Nat`
nonces. -/
structure User where
  id : Nat
  fullName : String
  email : String
  password : PwHash
  otpHash : Option Digest := none
  otpExpires : Option Nat := none
  loginAttempts : Nat := 0
  lockUntil : Option Nat := none
  refreshTokens : List Nat := []
  profilePic : Option String := none
  bio : Option String := none
  lastLogin : Option Nat := none
deriving DecidableEq, Repr

/-- The virtual `isLocked` (`user.js:58-60`):
`!!(this.lockUntil && this.lockUntil > Date.now())`. -/
def User.isLocked (u : User) (now : Nat) : Bool :=
  match u.lockUntil with
  | some t => now < t
  | none => false

/-- `UserSchema.methods.incrementLoginAttempts` (`user.js:81-95`). -/
def incrementLoginAttempts (now : Nat) (u : User) : User :=
  let step : User :=
    let n := u.loginAttempts + 1
    if 5 ≤ n ∧ ¬ u.isLocked now then
      { u with loginAttempts := n, lockUntil := some (now + 1800000) }
    else
      { u with loginAttempts := n }
  match u.lockUntil with
  | some t =>
      if t < now then { u with loginAttempts := 1, lockUntil := none } else step
  | none => step

/- ### The store -/

/-- The persistent store: the `User` collection plus the model's sources of
fresh ids and fresh opaque tokens, and a counter of bcrypt hash
invocations (to make "before any hashing work" observable). -/
structure DB where
  users : List User
  nextId : Nat := 0
  nextTok : Nat := 0
  hashOps : Nat := 0
deriving DecidableEq, Repr

/-- `User.findOne({ email })`: the schema setters normalize the filter
value, and stored emails are normalized at creation. -/
def findByEmail (db : DB) (e : String) : Option User :=
  db.users.find? (fun u => u.email == normalizeEmail e)

/-- `user.save()` on an already-persisted document: id-keyed replacement. -/
def saveUser (db : DB) (u : User) : DB :=
  { db with users := db.users.map (fun v => if v.id == u.id then u else v) }

/- ### Responses and tokens -/

/-- An HTTP reply `res.status(s).json({ message })`. -/
structure Reply where
  status : Nat
  message : String
deriving DecidableEq, Repr

/-- `jwt.sign({ id: user._id }, secret, { expiresIn })`: the signed claim
set of a stateless token. -/
structure Jwt where
  id : Nat
  exp : Nat
deriving DecidableEq, Repr

/-- `signAccessToken` (`authController.js:6-7`), `expiresIn: '15m'`. -/
def signAccessToken (now : Nat) (u : User) : Jwt :=
  ⟨u.id, now + 900000⟩

/-- The stateless-variant `signRefreshToken` (`authController.js:9-10`),
`expiresIn: '7d'`. -/
def signRefreshJwt (now : Nat) (u : User) : Jwt :=
  ⟨u.id, now + 604800000⟩

/-- Result of the `signup` endpoint. -/
inductive SignupRes
  | created (userId : Nat) (message : String)
  | fail (r : Reply)
deriving DecidableEq, Repr

/-- Result of an endpoint answering with a stateless token pair. -/
inductive TokenRes
  | ok (accessToken refreshToken : Jwt)
  | fail (r : Reply)
deriving DecidableEq, Repr

/-- Mongoose document validation for a freshly created user: `fullName`
required (empty string fails `required`), `email` must match `EMAIL_REGEX`
after the setters, `password` has `minlength: 8` and must match
`PASSWORD_REGEX` (`user.js:9-39`).  Validation runs before the bcrypt
pre-save hook, so an invalid document is rejected before any hashing. -/
def schemaValidNew (fullName email password : String) : Bool :=
  trimStr fullName ≠ "" && emailOk (normalizeEmail email)
    && 8 ≤ password.length && passwordRegexOk password

/- ### `authController.js` handlers -/

/-- `exports.signup` (`authController.js:19-51`).  The randomly generated
six-digit OTP is the oracle argument `otp`; a missing body field is the
empty string (JS falsy).  The code saves the new document, then sets the
OTP fields and saves again; the net store effect is the single insertion
below, with exactly one bcrypt hash invocation. -/
def signup (db : DB) (now : Nat) (otp : String)
    (fullName email password : String) : SignupRes × DB :=
  if fullName == "" || email == "" || password == "" then
    (.fail ⟨400, "Full name, email, and password are required"⟩, db)
  else if !isStrongPassword password then
    (.fail ⟨400,
      "Password weak. Must be >=8 chars and include upper, lower, digit, and special character."⟩,
      db)
  else if (findByEmail db email).isSome then
    (.fail ⟨400, "Email already registered"⟩, db)
  else if !schemaValidNew fullName email password then
    (.fail ⟨500, "Server error during signup"⟩, db)
  else
    let u : User :=
      { id := db.nextId, fullName := trimStr fullName,
        email := normalizeEmail email,
        password := PwHash.bcrypt password,
        otpHash := some (Digest.sha256 otp),
        otpExpires := some (now + 600000) }
    (.created u.id "User created. Verify OTP sent to email.",
      { db with users := db.users ++ [u], nextId := db.nextId + 1,
                hashOps := db.hashOps + 1 })

/-- `exports.verifyOtp` (`authController.js:54-79`).  The guard is
`!user.otpHash || hashedOtp !== user.otpHash || user.otpExpires < Date.now()`
(a `null` expiry coerces to 0).  On success both OTP fields are cleared and
a stateless token pair is issued; this variant does not persist the refresh
token. -/
def verifyOtp (db : DB) (now : Nat) (email otp : String) : TokenRes × DB :=
  if email == "" || otp == "" then
    (.fail ⟨400, "Email and OTP required"⟩, db)
  else
    match findByEmail db email with
    | none => (.fail ⟨404, "User not found"⟩, db)
    | some u =>
      if u.otpHash.isNone || !(u.otpHash == some (Digest.sha256 otp))
          || u.otpExpires.getD 0 < now then
        (.fail ⟨400, "Invalid or expired OTP"⟩, db)
      else
        let u2 := { u with otpHash := none, otpExpires := none }
        (.ok (signAccessToken now u2) (signRefreshJwt now u2), saveUser db u2)

/-- `exports.login` (`authController.js:82-101`).  Unknown email and wrong
password produce the same 401 reply; nothing is recorded on failure and the
store is never written. -/
def login (db : DB) (now : Nat) (email password : String) : TokenRes × DB :=
  if email == "" || password == "" then
    (.fail ⟨400, "Email and password required"⟩, db)
  else
    match findByEmail db email with
    | none => (.fail ⟨401, "Invalid credentials"⟩, db)
    | some u =>
      if matchPassword password u.password then
        (.ok (signAccessToken now u) (signRefreshJwt now u), db)
      else
        (.fail ⟨401, "Invalid credentials"⟩, db)

/-- `exports.resetPassword` (`authController.js:126-153`).  Field presence
and password strength are checked before the lookup and the OTP check; all
failure paths return before the document is mutated.  On success the new
password is assigned and hashed by the pre-save hook (schema validation of
the modified password runs first). -/
def resetPassword (db : DB) (now : Nat)
    (email otp newPassword : String) : Reply × DB :=
  if email == "" || otp == "" || newPassword == "" then
    (⟨400, "Email, OTP, and new password required"⟩, db)
  else if !isStrongPassword newPassword then
    (⟨400, "Password weak. Follow policy."⟩, db)
  else
    match findByEmail db email with
    | none => (⟨404, "User not found"⟩, db)
    | some u =>
      if u.otpHash.isNone || !(u.otpHash == some (Digest.sha256 otp))
          || u.otpExpires.getD 0 < now then
        (⟨400, "Invalid or expired OTP"⟩, db)
      else if !passwordRegexOk newPassword then
        (⟨500, "Server error during password reset"⟩, db)
      else
        let u2 := { u with password := PwHash.bcrypt newPassword,
                           otpHash := none, otpExpires := none }
        (⟨200, "Password reset successful"⟩,
          { saveUser db u2 with hashOps := db.hashOps + 1 })

/- ### The persisted-opaque-token controller variant -/

/-- `User.findOne({ refreshTokens: refreshToken })`: membership lookup. -/
def findByRefreshToken (db : DB) (t : Nat) : Option User :=
  db.users.find? (fun u => u.refreshTokens.contains t)

/-- Result of the persisted-variant `refresh`: the rotated-in refresh token
is an opaque nonce. -/
inductive RotateRes
  | ok (accessToken : Jwt) (refreshToken : Nat)
  | fail (r : Reply)
deriving DecidableEq, Repr

/-- `user.refreshTokens.filter((t) => t !== refreshToken)`: the owner's
document after the `logout` removal. -/
def removeToken (u : User) (t : Nat) : User :=
  { u with refreshTokens := u.refreshTokens.filter (fun x => x ≠ t) }

/-- Filter out the presented token and push the fresh one: the owner's
document after the `refresh` rotation. -/
def rotateToken (u : User) (t b : Nat) : User :=
  { u with refreshTokens := u.refreshTokens.filter (fun x => x ≠ t) ++ [b] }

namespace Persisted

/-- The persisted-opaque-token variant's `exports.refresh`.  `tok = none`
models a missing/empty `refreshToken` body field.  The presented token is
located by membership; on success it is filtered out of the owner's
`refreshTokens`, a fresh opaque token is pushed, and the document saved. -/
def refresh (db : DB) (now : Nat) (tok : Option Nat) : RotateRes × DB :=
  match tok with
  | none => (.fail ⟨400, "Refresh token required"⟩, db)
  | some t =>
    match findByRefreshToken db t with
    | none => (.fail ⟨401, "Invalid refresh token"⟩, db)
    | some u =>
      (.ok (signAccessToken now u) db.nextTok,
        { saveUser db (rotateToken u t db.nextTok) with
            nextTok := db.nextTok + 1 })

/-- The persisted-opaque-token variant's `exports.logout`.  An owner of the
token is looked up by membership; if none exists the reply is a 200
"Already logged out", otherwise the token is filtered out and the reply is
a 200 "Logged out successfully". -/
def logout (db : DB) (tok : Option Nat) : Reply × DB :=
  match tok with
  | none => (⟨400, "Refresh token required"⟩, db)
  | some t =>
    match findByRefreshToken db t with
    | none => (⟨200, "Already logged out"⟩, db)
    | some u =>
      (⟨200, "Logged out successfully"⟩, saveUser db (removeToken u t))

end Persisted

/- ### Spec-side predicate (for the refinement comparison of the
password-strength claim) -/

/-- Modelled from the spec (§4.2/§8): the acceptance rule as the claim
states it — length at least 8 and one character of each of the four
classes, the "symbol" class being the set matched by the code's `[\W_]`
(any non-alphanumeric character).  To be compared against the code's
`isStrongPassword`. -/
def strongSpec (p : String) : Prop :=
  8 ≤ p.length
    ∧ (∃ c ∈ p.data, isLowerAscii c = true)
    ∧ (∃ c ∈ p.data, isUpperAscii c = true)
    ∧ (∃ c ∈ p.data, isDigitAscii c = true)
    ∧ (∃ c ∈ p.data, isAsciiAlphanum c = false)

instance (p : String) : Decidable (strongSpec p) := by
  unfold strongSpec; infer_instance

/- ### Concrete fixtures used by witnesses and counterexamples -/

/-- A registered account with a pending, unexpired OTP (hash of
`"123456"`, expiring at 601000). -/
def adaUser : User :=
  { id := 0, fullName := "Ada", email := "ada@x.com",
    password := PwHash.bcrypt "Abcdef1!",
    otpHash := some (Digest.sha256 "123456"), otpExpires := some 601000 }

/-- A one-account store holding `adaUser`. -/
def dbAda : DB := { users := [adaUser], nextId := 1 }

/-- An account holding the opaque refresh token `0`. -/
def tokUser : User :=
  { id := 7, fullName := "Ada", email := "ada@x.com",
    password := PwHash.bcrypt "Abcdef1!", refreshTokens := [0] }

/-- A one-account store holding `tokUser`; the next fresh token is `1`. -/
def dbTok : DB := { users := [tokUser], nextId := 8, nextTok := 1 }

/-- An account with four failed login attempts and no lock. -/
def fourFailUser : User :=
  { id := 0, fullName := "A", email := "a@b.cd", password := PwHash.bcrypt "x",
    loginAttempts := 4 }

/-- The empty store. -/
def emptyDB : DB := { users := [] }

/-- The store produced by one successful signup of Ada on the empty
store. -/
def dbSigned : DB := (signup emptyDB 0 "123456" "Ada" "ada@x.com" "Abcdef1!").2

/- ### Helper lemmas about the store primitives -/

theorem contains_true_iff (l : List Nat) (a : Nat) :
    l.contains a = true ↔ a ∈ l := by
  simp [List.contains]

theorem contains_false_iff (l : List Nat) (a : Nat) :
    l.contains a = false ↔ a ∉ l := by
  rw [← Bool.not_eq_true, not_iff_not]; exact contains_true_iff l a

/-- Replacing the user found by an email lookup with a same-id, same-email
user commutes with the lookup. -/
theorem find?_email_update (l : List User) (e' : String) (u u2 : User)
    (hfind : l.find? (fun v => v.email == e') = some u)
    (hid : u2.id = u.id) (hemail : u2.email = u.email) :
    (l.map (fun v => if v.id == u2.id then u2 else v)).find?
      (fun v => v.email == e') = some u2 := by
  induction l with
  | nil => simp at hfind
  | cons v t ih =>
    by_cases hv : (v.email == e') = true
    · rw [List.find?_cons_of_pos (p := fun w : User => w.email == e') _ hv,
        Option.some.injEq] at hfind
      subst hfind
      have hvid : (v.id == u2.id) = true := by simp [hid]
      have hv2 : (u2.email == e') = true := by
        rw [show u2.email = v.email from hemail]; exact hv
      simp only [List.map_cons, if_pos hvid]
      exact List.find?_cons_of_pos (p := fun w : User => w.email == e') _ hv2
    · rw [List.find?_cons_of_neg (p := fun w : User => w.email == e') _ hv] at hfind
      simp only [List.map_cons]
      by_cases hvid : (v.id == u2.id) = true
      · have hu : (u.email == e') = true :=
          List.find?_some (p := fun w : User => w.email == e') hfind
        have hu2 : (u2.email == e') = true := by rw [hemail]; exact hu
        rw [if_pos hvid]
        exact List.find?_cons_of_pos (p := fun w : User => w.email == e') _ hu2
      · rw [if_neg hvid, List.find?_cons_of_neg (p := fun w : User => w.email == e') _ hv]
        exact ih hfind

/-- `findByEmail` after `saveUser` of a same-id, same-email update. -/
theorem findByEmail_saveUser (db : DB) (e : String) (u u2 : User)
    (hfind : findByEmail db e = some u)
    (hid : u2.id = u.id) (hemail : u2.email = u.email) :
    findByEmail (saveUser db u2) e = some u2 := by
  have := find?_email_update db.users (normalizeEmail e) u u2 hfind hid hemail
  simpa [findByEmail, saveUser] using this

/-- A token-membership lookup fails when no user holds the token. -/
theorem find?_token_none (l : List User) (a : Nat)
    (h : ∀ v ∈ l, a ∉ v.refreshTokens) :
    l.find? (fun v => v.refreshTokens.contains a) = none := by
  rw [List.find?_eq_none]
  intro x hx
  simp [contains_true_iff]
  exact h x hx

/-- After replacing the id-matching user by `u2`, a lookup for a token `b`
that no stored user held but `u2` holds finds `u2`. -/
theorem find?_token_update_some (l : List User) (u2 : User) (b : Nat)
    (hmem : ∃ v ∈ l, v.id = u2.id)
    (hfresh : ∀ v ∈ l, b ∉ v.refreshTokens)
    (hb : b ∈ u2.refreshTokens) :
    (l.map (fun v => if v.id == u2.id then u2 else v)).find?
      (fun v => v.refreshTokens.contains b) = some u2 := by
  induction l with
  | nil => simp at hmem
  | cons v t ih =>
    simp only [List.map_cons]
    by_cases hv : (v.id == u2.id) = true
    · rw [if_pos hv]
      exact List.find?_cons_of_pos (p := fun w : User => w.refreshTokens.contains b) _
        ((contains_true_iff _ _).mpr hb)
    · rw [if_neg hv, List.find?_cons_of_neg (p := fun w : User => w.refreshTokens.contains b)]
      · apply ih
        · obtain ⟨w, hw, hwid⟩ := hmem
          rcases List.mem_cons.mp hw with rfl | hwt
          · exact absurd (by simp [hwid]) hv
          · exact ⟨w, hwt, hwid⟩
        · intro x hx
          exact hfresh x (List.mem_cons_of_mem _ hx)
      · simp [contains_true_iff]
        exact hfresh v (List.mem_cons_self v t)

/-- After replacing the id-matching user by a `u2` that no longer holds
token `a`, a lookup for `a` fails, provided only users with the replaced id
held `a`. -/
theorem find?_token_update_none (l : List User) (u u2 : User) (a : Nat)
    (hown : ∀ v ∈ l, a ∈ v.refreshTokens → v.id = u.id)
    (hid : u2.id = u.id)
    (hnot : a ∉ u2.refreshTokens) :
    (l.map (fun v => if v.id == u2.id then u2 else v)).find?
      (fun v => v.refreshTokens.contains a) = none := by
  apply find?_token_none
  intro w hw
  obtain ⟨v, hv, rfl⟩ := List.mem_map.mp hw
  by_cases hc : (v.id == u2.id) = true
  · rw [if_pos hc]
    exact hnot
  · rw [if_neg hc]
    intro hmem
    exact hc (by simp [hid, hown v hv hmem])

/- ### C5 — password-strength rule -/

/-- C5 counterexample: the claim's acceptance rule ("length ≥ 8 and one
character of each of the four classes") predicts that `"Abcdef1!\n"` is
accepted — it has 9 characters, a lowercase letter, an uppercase letter, a
digit and the symbol `!` — but the code's `isStrongPassword` rejects it,
because the JS regex body `.{8,}$` cannot match across the newline. -/
theorem password_strength_claim_counterexample :
    strongSpec "Abcdef1!\n" ∧ isStrongPassword "Abcdef1!\n" = false :=
  ⟨by decide, by decide⟩

/-- C5 (amended): `isStrongPassword` accepts exactly the strings of length
≥ 8 that contain no JS line terminator and contain at least one lowercase
letter, one uppercase letter, one digit and one non-alphanumeric character;
`"Abcdef1!"` is accepted and strings missing one class (or too short) are
rejected; and the very same check gates both `signup` and `resetPassword`
(each returns its weak-password failure exactly on `isStrongPassword`
rejection, before touching the store). -/
theorem password_strength_rule :
    (∀ db now otp fn e p, fn ≠ "" → e ≠ "" → p ≠ "" →
      isStrongPassword p = false →
      signup db now otp fn e p = (.fail ⟨400,
        "Password weak. Must be >=8 chars and include upper, lower, digit, and special character."⟩,
        db))
    ∧ (∀ db now e code p, e ≠ "" → code ≠ "" → p ≠ "" →
      isStrongPassword p = false →
      resetPassword db now e code p
        = (⟨400, "Password weak. Follow policy."⟩, db))
    ∧ (∀ p : String, isStrongPassword p = true ↔
        (8 ≤ p.length
          ∧ (∀ c ∈ p.data, isLineTerminator c = false)
          ∧ (∃ c ∈ p.data, isLowerAscii c = true)
          ∧ (∃ c ∈ p.data, isUpperAscii c = true)
          ∧ (∃ c ∈ p.data, isDigitAscii c = true)
          ∧ (∃ c ∈ p.data, isAsciiAlphanum c = false)))
    ∧ isStrongPassword "Abcdef1!" = true
    ∧ isStrongPassword "bcdefg1!" = false
    ∧ isStrongPassword "BCDEFG1!" = false
    ∧ isStrongPassword "Abcdefg!" = false
    ∧ isStrongPassword "Abcdefg1" = false
    ∧ isStrongPassword "Abcd1!" = false := by
  refine ⟨?_, ?_, ?_, by decide, by decide, by decide, by decide, by decide,
    by decide⟩
  · intro db now otp fn e p hfn he hp hw
    have h1 : (fn == "") = false := beq_eq_false_iff_ne.mpr hfn
    have h2 : (e == "") = false := beq_eq_false_iff_ne.mpr he
    have h3 : (p == "") = false := beq_eq_false_iff_ne.mpr hp
    simp [signup, h1, h2, h3, hw]
  · intro db now e code p he hcode hp hw
    have h1 : (e == "") = false := beq_eq_false_iff_ne.mpr he
    have h2 : (code == "") = false := beq_eq_false_iff_ne.mpr hcode
    have h3 : (p == "") = false := beq_eq_false_iff_ne.mpr hp
    simp [resetPassword, h1, h2, h3, hw]
  · intro p
    simp [isStrongPassword, List.all_eq_true, List.any_eq_true,
      Bool.not_eq_true', and_assoc]

/-- C5 witness: the amended theorem applied at a concrete weak password. -/
theorem password_strength_rule_witness :
    resetPassword emptyDB 5 "a@b.cd" "111111" "weak"
      = (⟨400, "Password weak. Follow policy."⟩, emptyDB) :=
  password_strength_rule.2.1 emptyDB 5 "a@b.cd" "111111" "weak"
    (by decide) (by decide) (by decide) (by decide)

/- ### C9 — lockout guard failure-recording transition -/

/-- C9: `incrementLoginAttempts` — if the account has a lock timestamp that
has elapsed, the failure count is reset to 1 and the lock cleared;
otherwise the count is incremented, and if the post-increment count reaches
5 the lock is set to now + 30 minutes (1800000 ms).  The hypothesis is the
invariant, preserved by the lockout state machine, that a count below 5
coincides with the absence of a lock timestamp. -/
theorem recordFailure_transition (now : Nat) (u : User)
    (hinv : u.loginAttempts < 5 ↔ u.lockUntil = none) :
    (∀ t, u.lockUntil = some t → t < now →
      (incrementLoginAttempts now u).loginAttempts = 1
        ∧ (incrementLoginAttempts now u).lockUntil = none)
    ∧ ((u.lockUntil = none ∨ ∃ t, u.lockUntil = some t ∧ now ≤ t) →
      (incrementLoginAttempts now u).loginAttempts = u.loginAttempts + 1
        ∧ (u.loginAttempts + 1 = 5 →
            (incrementLoginAttempts now u).lockUntil = some (now + 1800000))) := by
  cases hl : u.lockUntil with
  | none =>
    refine ⟨fun t ht _ => absurd ht (by simp), fun _ => ?_⟩
    by_cases h5 : 5 ≤ u.loginAttempts + 1
    · simp [incrementLoginAttempts, User.isLocked, hl, h5]
    · simp [incrementLoginAttempts, User.isLocked, hl, h5]
      omega
  | some t0 =>
    by_cases hlt : t0 < now
    · refine ⟨fun t ht _ => ?_, fun hcase => ?_⟩
      · injection ht with hh
        subst hh
        simp [incrementLoginAttempts, hl, hlt]
      · rcases hcase with hnone | ⟨t, ht, hnow⟩
        · exact absurd hnone (by simp)
        · injection ht with hh
          omega
    · refine ⟨fun t ht h2 => ?_, fun _ => ?_⟩
      · injection ht with hh
        omega
      · have hnolock : u.loginAttempts + 1 = 5 → False := fun h5 => by
          have hn : u.lockUntil = none := hinv.mp (by omega)
          rw [hl] at hn
          exact absurd hn (by simp)
        constructor
        · simp only [incrementLoginAttempts, hl, if_neg hlt]
          split <;> rfl
        · exact fun h5 => (hnolock h5).elim

/-- C9 witness: a fifth consecutive failure at time 1000 on an account with
four failures and no lock yields count 5 and a lock until 1801000. -/
theorem recordFailure_transition_witness :
    (incrementLoginAttempts 1000 fourFailUser).loginAttempts
        = fourFailUser.loginAttempts + 1
      ∧ (incrementLoginAttempts 1000 fourFailUser).lockUntil = some 1801000 := by
  have h := (recordFailure_transition 1000 fourFailUser (by decide)).2
    (Or.inl (by decide))
  exact ⟨h.1, h.2 (by decide)⟩

/- ### C8 — login does not reveal account existence -/

/-- C8: an unknown email and a registered email with a wrong password both
make `login` fail with the identical 401 "Invalid credentials" reply, and
neither run mutates the store. -/
theorem login_no_account_enumeration
    (db : DB) (now now' : Nat) (e1 p1 e2 p2 : String) (u : User)
    (h1e : e1 ≠ "") (h1p : p1 ≠ "")
    (hfind1 : findByEmail db e1 = none)
    (h2e : e2 ≠ "") (h2p : p2 ≠ "")
    (hfind2 : findByEmail db e2 = some u)
    (hmm : matchPassword p2 u.password = false) :
    login db now e1 p1 = (.fail ⟨401, "Invalid credentials"⟩, db)
    ∧ login db now' e2 p2 = (.fail ⟨401, "Invalid credentials"⟩, db)
    ∧ (login db now e1 p1).1 = (login db now' e2 p2).1 := by
  have a1 : (e1 == "") = false := beq_eq_false_iff_ne.mpr h1e
  have a2 : (p1 == "") = false := beq_eq_false_iff_ne.mpr h1p
  have a3 : (e2 == "") = false := beq_eq_false_iff_ne.mpr h2e
  have a4 : (p2 == "") = false := beq_eq_false_iff_ne.mpr h2p
  have hA : login db now e1 p1 = (.fail ⟨401, "Invalid credentials"⟩, db) := by
    simp [login, a1, a2, hfind1]
  have hB : login db now' e2 p2 = (.fail ⟨401, "Invalid credentials"⟩, db) := by
    simp [login, a3, a4, hfind2, hmm]
  exact ⟨hA, hB, by rw [hA, hB]⟩

/-- C8 witness: on the concrete one-account store, an unregistered email
and the registered email with a wrong password fail identically. -/
theorem login_no_account_enumeration_witness :
    login dbAda 5 "nobody@x.com" "Whatever1!"
        = (.fail ⟨401, "Invalid credentials"⟩, dbAda)
      ∧ login dbAda 6 "ada@x.com" "Wrong999!"
        = (.fail ⟨401, "Invalid credentials"⟩, dbAda)
      ∧ (login dbAda 5 "nobody@x.com" "Whatever1!").1
        = (login dbAda 6 "ada@x.com" "Wrong999!").1 :=
  login_no_account_enumeration dbAda 5 6 "nobody@x.com" "Whatever1!"
    "ada@x.com" "Wrong999!" adaUser (by decide) (by decide) (by decide)
    (by decide) (by decide) (by decide) (by decide)

/- ### C4 — duplicate email rejected before hashing -/

/-- C4: a second signup whose email equals a stored account's email after
trimming and lowercasing fails with the 400 "Email already registered"
reply, the store is returned unchanged, and in particular the bcrypt
invocation counter is unchanged: the failure occurs before any password
hashing work. -/
theorem signup_duplicate_email
    (db : DB) (now : Nat) (otp fn e p : String) (u0 : User)
    (hfn : fn ≠ "") (he : e ≠ "") (hp : p ≠ "")
    (hstrong : isStrongPassword p = true)
    (hmem : u0 ∈ db.users) (hcoll : u0.email = normalizeEmail e) :
    signup db now otp fn e p = (.fail ⟨400, "Email already registered"⟩, db)
    ∧ (signup db now otp fn e p).2.hashOps = db.hashOps := by
  have a1 : (fn == "") = false := beq_eq_false_iff_ne.mpr hfn
  have a2 : (e == "") = false := beq_eq_false_iff_ne.mpr he
  have a3 : (p == "") = false := beq_eq_false_iff_ne.mpr hp
  have hdup : (findByEmail db e).isSome = true := by
    unfold findByEmail
    rw [List.find?_isSome]
    exact ⟨u0, hmem, by simp [hcoll]⟩
  have hA : signup db now otp fn e p
      = (.fail ⟨400, "Email already registered"⟩, db) := by
    simp [signup, a1, a2, a3, hstrong, hdup]
  exact ⟨hA, by rw [hA]⟩

/-- C4 witness: a signup with the case-varied email "ADA@X.com" colliding
with the stored "ada@x.com" fails as a duplicate with no hashing. -/
theorem signup_duplicate_email_witness :
    signup dbAda 7 "654321" "Bob" "ADA@X.com" "Xyzabc2@"
        = (.fail ⟨400, "Email already registered"⟩, dbAda)
      ∧ (signup dbAda 7 "654321" "Bob" "ADA@X.com" "Xyzabc2@").2.hashOps
        = dbAda.hashOps :=
  signup_duplicate_email dbAda 7 "654321" "Bob" "ADA@X.com" "Xyzabc2@" adaUser
    (by decide) (by decide) (by decide) (by decide) (by decide) (by decide)

/- ### C10 — login requires no completed OTP verification -/

/-- C10: after a successful signup the new account still carries its
pending (never verified) OTP, and login with the correct password
nevertheless succeeds with a token pair; no verified flag exists for login
to check. -/
theorem login_without_otp_verification
    (db : DB) (now now' : Nat) (otp fn e p : String)
    (hfn : fn ≠ "") (he : e ≠ "") (hp : p ≠ "")
    (hstrong : isStrongPassword p = true)
    (hvalid : schemaValidNew fn e p = true)
    (hnew : findByEmail db e = none) :
    (signup db now otp fn e p).1
        = .created db.nextId "User created. Verify OTP sent to email."
    ∧ (∃ u, findByEmail (signup db now otp fn e p).2 e = some u
        ∧ u.otpHash = some (Digest.sha256 otp)
        ∧ login (signup db now otp fn e p).2 now' e p
            = (.ok ⟨u.id, now' + 900000⟩ ⟨u.id, now' + 604800000⟩,
               (signup db now otp fn e p).2)) := by
  have a1 : (fn == "") = false := beq_eq_false_iff_ne.mpr hfn
  have a2 : (e == "") = false := beq_eq_false_iff_ne.mpr he
  have a3 : (p == "") = false := beq_eq_false_iff_ne.mpr hp
  have hnos : (findByEmail db e).isSome = false := by rw [hnew]; rfl
  have hsign : signup db now otp fn e p
      = (.created db.nextId "User created. Verify OTP sent to email.",
         { db with
            users := db.users ++
              [{ id := db.nextId, fullName := trimStr fn,
                 email := normalizeEmail e,
                 password := PwHash.bcrypt p,
                 otpHash := some (Digest.sha256 otp),
                 otpExpires := some (now + 600000) }],
            nextId := db.nextId + 1, hashOps := db.hashOps + 1 }) := by
    simp [signup, a1, a2, a3, hstrong, hnos, hvalid]
  refine ⟨by rw [hsign], ?_⟩
  refine ⟨{ id := db.nextId, fullName := trimStr fn,
            email := normalizeEmail e,
            password := PwHash.bcrypt p,
            otpHash := some (Digest.sha256 otp),
            otpExpires := some (now + 600000) }, ?_, rfl, ?_⟩
  · rw [hsign]
    unfold findByEmail at hnew ⊢
    simp only [List.find?_append, hnew]
    simp
  · have hfindNew : findByEmail (signup db now otp fn e p).2 e
        = some { id := db.nextId, fullName := trimStr fn,
                 email := normalizeEmail e,
                 password := PwHash.bcrypt p,
                 otpHash := some (Digest.sha256 otp),
                 otpExpires := some (now + 600000) } := by
      rw [hsign]
      unfold findByEmail at hnew ⊢
      simp only [List.find?_append, hnew]
      simp
    simp [login, a2, a3, hfindNew, matchPassword, signAccessToken, signRefreshJwt]

/-- C10 witness: concrete signup then login with the OTP never verified. -/
theorem login_without_otp_verification_witness :
    (signup emptyDB 0 "123456" "Ada" "Ada@X.com" "Abcdef1!").1
        = .created 0 "User created. Verify OTP sent to email."
    ∧ (∃ u, findByEmail (signup emptyDB 0 "123456" "Ada" "Ada@X.com" "Abcdef1!").2
          "Ada@X.com" = some u
        ∧ u.otpHash = some (Digest.sha256 "123456")
        ∧ login (signup emptyDB 0 "123456" "Ada" "Ada@X.com" "Abcdef1!").2 50
            "Ada@X.com" "Abcdef1!"
            = (.ok ⟨u.id, 50 + 900000⟩ ⟨u.id, 50 + 604800000⟩,
               (signup emptyDB 0 "123456" "Ada" "Ada@X.com" "Abcdef1!").2)) :=
  login_without_otp_verification emptyDB 0 50 "123456" "Ada" "Ada@X.com"
    "Abcdef1!" (by decide) (by decide) (by decide) (by decide) (by decide)
    (by decide)

/- ### C7 — resetPassword is atomic on failure -/

/-- C7: on an account with a pending unexpired OTP, a `resetPassword` call
failing with the weak-password reply, with a wrong code, or with an expired
clock returns the store verbatim (so `otpHash`, `otpExpires` and the stored
password hash are untouched), and the same OTP still succeeds afterwards
within its window. -/
theorem resetPassword_atomic_on_failure
    (db : DB) (now : Nat) (e code : String) (u : User) (T : Nat)
    (he : e ≠ "") (hcode : code ≠ "")
    (hfind : findByEmail db e = some u)
    (hotp : u.otpHash = some (Digest.sha256 code))
    (hexp : u.otpExpires = some T) (hnow : now ≤ T) :
    (∀ pw, pw ≠ "" → isStrongPassword pw = false →
      resetPassword db now e code pw
        = (⟨400, "Password weak. Follow policy."⟩, db))
    ∧ (∀ code2 pw, code2 ≠ "" → pw ≠ "" → code2 ≠ code →
      isStrongPassword pw = true →
      resetPassword db now e code2 pw
        = (⟨400, "Invalid or expired OTP"⟩, db))
    ∧ (∀ now2 pw, T < now2 → pw ≠ "" → isStrongPassword pw = true →
      resetPassword db now2 e code pw
        = (⟨400, "Invalid or expired OTP"⟩, db))
    ∧ (∀ pw, pw ≠ "" → isStrongPassword pw = true → passwordRegexOk pw = true →
      (resetPassword db now e code pw).1
        = ⟨200, "Password reset successful"⟩) := by
  have a1 : (e == "") = false := beq_eq_false_iff_ne.mpr he
  have a2 : (code == "") = false := beq_eq_false_iff_ne.mpr hcode
  refine ⟨?_, ?_, ?_, ?_⟩
  · intro pw hpw hw
    have a3 : (pw == "") = false := beq_eq_false_iff_ne.mpr hpw
    simp [resetPassword, a1, a2, a3, hw]
  · intro code2 pw hc2 hpw hne hs
    have a2b : (code2 == "") = false := beq_eq_false_iff_ne.mpr hc2
    have a3 : (pw == "") = false := beq_eq_false_iff_ne.mpr hpw
    have hmiss : (u.otpHash == some (Digest.sha256 code2)) = false := by
      simp [hotp]
      exact fun h => hne h.symm
    simp [resetPassword, a1, a2b, a3, hs, hfind, hmiss]
  · intro now2 pw hlate hpw hs
    have a3 : (pw == "") = false := beq_eq_false_iff_ne.mpr hpw
    simp [resetPassword, a1, a2, a3, hs, hfind, hexp, hlate]
  · intro pw hpw hs hr
    have a3 : (pw == "") = false := beq_eq_false_iff_ne.mpr hpw
    simp [resetPassword, a1, a2, a3, hs, hr, hfind, hotp, hexp,
      Nat.not_lt.mpr hnow]

/-- C7 witness: on the concrete pending-OTP store, a weak new password is
rejected with the store unchanged, and the same OTP then still resets. -/
theorem resetPassword_atomic_on_failure_witness :
    resetPassword dbAda 1000 "ada@x.com" "123456" "weakpwd"
        = (⟨400, "Password weak. Follow policy."⟩, dbAda)
      ∧ (resetPassword dbAda 1000 "ada@x.com" "123456" "Xyzabc2@").1
        = ⟨200, "Password reset successful"⟩ := by
  have h := resetPassword_atomic_on_failure dbAda 1000 "ada@x.com" "123456"
    adaUser 601000 (by decide) (by decide) (by decide) (by decide) (by decide)
    (by decide)
  exact ⟨h.1 "weakpwd" (by decide) (by decide),
    h.2.2.2 "Xyzabc2@" (by decide) (by decide) (by decide)⟩

/- ### C6 — OTP is single-use -/

/-- C6 counterexample: the claim says the second `verify` with the consumed
code fails with a distinct `NoOtpPending` kind; the code's reply is the
unified 400 "Invalid or expired OTP" — byte-identical to the reply a
mismatched code gets while an OTP is still pending — so no distinct
`NoOtpPending` failure is observable. -/
theorem otp_second_verify_reply_counterexample :
    (verifyOtp (verifyOtp dbAda 1000 "ada@x.com" "123456").2 1500
        "ada@x.com" "123456").1
      = .fail ⟨400, "Invalid or expired OTP"⟩
    ∧ (verifyOtp dbAda 1000 "ada@x.com" "999999").1
      = .fail ⟨400, "Invalid or expired OTP"⟩ :=
  ⟨by decide, by decide⟩

/-- C6 (amended): a pending, unexpired OTP verifies successfully exactly
once — the success path clears both `otpHash` and `otpExpires` — and a
second `verify` with the same code fails with the unified 400
"Invalid or expired OTP" reply (the `otpHash` absent branch). -/
theorem otp_single_use
    (db : DB) (now now2 : Nat) (e code : String) (u : User) (T : Nat)
    (he : e ≠ "") (hcode : code ≠ "")
    (hfind : findByEmail db e = some u)
    (hotp : u.otpHash = some (Digest.sha256 code))
    (hexp : u.otpExpires = some T) (hnow : now ≤ T) :
    verifyOtp db now e code
        = (.ok ⟨u.id, now + 900000⟩ ⟨u.id, now + 604800000⟩,
           saveUser db { u with otpHash := none, otpExpires := none })
    ∧ findByEmail (saveUser db { u with otpHash := none, otpExpires := none }) e
        = some { u with otpHash := none, otpExpires := none }
    ∧ verifyOtp (saveUser db { u with otpHash := none, otpExpires := none })
        now2 e code
        = (.fail ⟨400, "Invalid or expired OTP"⟩,
           saveUser db { u with otpHash := none, otpExpires := none }) := by
  have a1 : (e == "") = false := beq_eq_false_iff_ne.mpr he
  have a2 : (code == "") = false := beq_eq_false_iff_ne.mpr hcode
  have hfind2 : findByEmail
      (saveUser db { u with otpHash := none, otpExpires := none }) e
      = some { u with otpHash := none, otpExpires := none } :=
    findByEmail_saveUser db e u _ hfind rfl rfl
  refine ⟨?_, hfind2, ?_⟩
  · simp [verifyOtp, a1, a2, hfind, hotp, hexp, Nat.not_lt.mpr hnow,
      signAccessToken, signRefreshJwt]
  · simp [verifyOtp, a1, a2, hfind2]

/-- C6 witness: the theorem applied on the concrete pending-OTP store. -/
theorem otp_single_use_witness :
    (verifyOtp
        (saveUser dbAda { adaUser with otpHash := none, otpExpires := none })
        2000 "ada@x.com" "123456").1
      = .fail ⟨400, "Invalid or expired OTP"⟩ := by
  have h := otp_single_use dbAda 1000 2000 "ada@x.com" "123456" adaUser 601000
    (by decide) (by decide) (by decide) (by decide) (by decide) (by decide)
  rw [h.2.2]

/- ### C1 — login lockout is never enforced -/

/-- C1: the lockout machinery (`incrementLoginAttempts`, `isLocked`) is
never invoked by `login`: five consecutive wrong-password login attempts
each fail 401 and return the store verbatim — no failure count is recorded
and no lock is set — and the sixth attempt with the correct password
succeeds with a token pair instead of failing `AccountLocked`. -/
theorem login_lockout_never_enforced :
    login dbSigned 1001 "ada@x.com" "Wrong999!"
        = (.fail ⟨401, "Invalid credentials"⟩, dbSigned)
    ∧ login dbSigned 1002 "ada@x.com" "Wrong999!"
        = (.fail ⟨401, "Invalid credentials"⟩, dbSigned)
    ∧ login dbSigned 1003 "ada@x.com" "Wrong999!"
        = (.fail ⟨401, "Invalid credentials"⟩, dbSigned)
    ∧ login dbSigned 1004 "ada@x.com" "Wrong999!"
        = (.fail ⟨401, "Invalid credentials"⟩, dbSigned)
    ∧ login dbSigned 1005 "ada@x.com" "Wrong999!"
        = (.fail ⟨401, "Invalid credentials"⟩, dbSigned)
    ∧ (login dbSigned 1006 "ada@x.com" "Abcdef1!").1
        = .ok ⟨0, 1006 + 900000⟩ ⟨0, 1006 + 604800000⟩
    ∧ dbSigned.users.all
        (fun v => v.loginAttempts == 0 && v.lockUntil == none) = true := by
  refine ⟨by decide, by decide, by decide, by decide, by decide, by decide,
    by decide⟩


/- ### C2 — refresh-token rotation -/

/-- C2: presenting a persisted refresh token `a` rotates it — the call
succeeds and hands out the fresh token `db.nextTok`, which differs from
`a`, while the store becomes the explicit rotated store; replaying `a`
against the rotated store fails with the 401 "Invalid refresh token" reply
and leaves it unchanged; and presenting the new token against the rotated
store succeeds.  The hypotheses are the generation invariants: `a` is held
only by documents with the owner's id, and every stored token is below the
fresh-token counter. -/
theorem refresh_rotation
    (db : DB) (now1 now2 now3 : Nat) (a : Nat) (u : User)
    (hfind : findByRefreshToken db a = some u)
    (hown : ∀ v ∈ db.users, a ∈ v.refreshTokens → v.id = u.id)
    (hfresh : ∀ v ∈ db.users, ∀ t ∈ v.refreshTokens, t < db.nextTok) :
    Persisted.refresh db now1 (some a)
      = (.ok ⟨u.id, now1 + 900000⟩ db.nextTok,
         { saveUser db (rotateToken u a db.nextTok) with
             nextTok := db.nextTok + 1 })
    ∧ db.nextTok ≠ a
    ∧ Persisted.refresh
        { saveUser db (rotateToken u a db.nextTok) with
            nextTok := db.nextTok + 1 } now2 (some a)
      = (.fail ⟨401, "Invalid refresh token"⟩,
         { saveUser db (rotateToken u a db.nextTok) with
             nextTok := db.nextTok + 1 })
    ∧ (Persisted.refresh
        { saveUser db (rotateToken u a db.nextTok) with
            nextTok := db.nextTok + 1 } now3 (some db.nextTok)).1
      = .ok ⟨u.id, now3 + 900000⟩ (db.nextTok + 1) := by
  have hmemu : u ∈ db.users := List.mem_of_find?_eq_some hfind
  have hau : a ∈ u.refreshTokens := (contains_true_iff _ _).mp
    (List.find?_some (p := fun w : User => w.refreshTokens.contains a) hfind)
  have haneq : db.nextTok ≠ a := by
    have := hfresh u hmemu a hau
    omega
  have hnota : a ∉ (rotateToken u a db.nextTok).refreshTokens := by
    simp [rotateToken, List.mem_filter]
    omega
  have hnone : findByRefreshToken
      { saveUser db (rotateToken u a db.nextTok) with
          nextTok := db.nextTok + 1 } a = none := by
    simp only [findByRefreshToken, saveUser]
    exact find?_token_update_none db.users u _ a hown rfl hnota
  have hfound2 : findByRefreshToken
      { saveUser db (rotateToken u a db.nextTok) with
          nextTok := db.nextTok + 1 } db.nextTok
      = some (rotateToken u a db.nextTok) := by
    simp only [findByRefreshToken, saveUser]
    exact find?_token_update_some db.users _ db.nextTok ⟨u, hmemu, rfl⟩
      (fun v hv hb => by have := hfresh v hv db.nextTok hb; omega)
      (by simp [rotateToken])
  refine ⟨by simp [Persisted.refresh, hfind, signAccessToken], haneq, ?_, ?_⟩
  · simp [Persisted.refresh, hnone]
  · simp only [Persisted.refresh]
    rw [hfound2]
    simp [signAccessToken, rotateToken]

/-- C2 witness: the rotation theorem applied on the concrete one-token
store: replaying the consumed token 0 against the rotated store fails. -/
theorem refresh_rotation_witness :
    Persisted.refresh
      { saveUser dbTok (rotateToken tokUser 0 dbTok.nextTok) with
          nextTok := dbTok.nextTok + 1 } 20 (some 0)
      = (.fail ⟨401, "Invalid refresh token"⟩,
         { saveUser dbTok (rotateToken tokUser 0 dbTok.nextTok) with
             nextTok := dbTok.nextTok + 1 }) :=
  (refresh_rotation dbTok 10 20 30 0 tokUser (by decide) (by decide)
    (by decide)).2.2.1

/- ### C3 — logout idempotence -/

/-- C3 counterexample: calling `logout` twice with the same live token
returns two 200 replies whose bodies differ ("Logged out successfully",
then "Already logged out"), refuting "the same success response". -/
theorem logout_same_response_counterexample :
    (Persisted.logout dbTok (some 0)).1.status = 200
    ∧ (Persisted.logout (Persisted.logout dbTok (some 0)).2
        (some 0)).1.status = 200
    ∧ (Persisted.logout dbTok (some 0)).1
        ≠ (Persisted.logout (Persisted.logout dbTok (some 0)).2 (some 0)).1 :=
  ⟨by decide, by decide, by decide⟩

/-- C3 (amended): `logout` on a live token revokes it and answers 200
"Logged out successfully"; a second `logout` with the same token answers
200 "Already logged out" with the store unchanged (idempotent in effect,
though the body differs); the revoked token no longer grants `refresh`;
and for a token no user holds, `logout` answers 200 "Already logged out"
and leaves the store unchanged. -/
theorem logout_idempotent
    (db : DB) (now : Nat) (a : Nat) (u : User)
    (hfind : findByRefreshToken db a = some u)
    (hown : ∀ v ∈ db.users, a ∈ v.refreshTokens → v.id = u.id) :
    Persisted.logout db (some a)
      = (⟨200, "Logged out successfully"⟩, saveUser db (removeToken u a))
    ∧ Persisted.logout (saveUser db (removeToken u a)) (some a)
      = (⟨200, "Already logged out"⟩, saveUser db (removeToken u a))
    ∧ (Persisted.refresh (saveUser db (removeToken u a)) now (some a)).1
      = .fail ⟨401, "Invalid refresh token"⟩
    ∧ (∀ db2 : DB, findByRefreshToken db2 a = none →
        Persisted.logout db2 (some a) = (⟨200, "Already logged out"⟩, db2)) := by
  have hnota : a ∉ (removeToken u a).refreshTokens := by
    simp [removeToken, List.mem_filter]
  have hnone : findByRefreshToken (saveUser db (removeToken u a)) a
      = none := by
    simp only [findByRefreshToken, saveUser]
    exact find?_token_update_none db.users u _ a hown rfl hnota
  refine ⟨by simp [Persisted.logout, hfind], ?_, ?_, ?_⟩
  · simp [Persisted.logout, hnone]
  · simp [Persisted.refresh, hnone]
  · intro db2 hn2
    simp [Persisted.logout, hn2]

/-- C3 witness: the theorem applied on the concrete one-token store: the
second logout answers 200 "Already logged out" with the store unchanged. -/
theorem logout_idempotent_witness :
    Persisted.logout (saveUser dbTok (removeToken tokUser 0)) (some 0)
      = (⟨200, "Already logged out"⟩, saveUser dbTok (removeToken tokUser 0)) :=
  (logout_idempotent dbTok 40 0 tokUser (by decide) (by decide)).2.1

end Inkwell
